import Mathlib

/-!
Verification of the conversational workflow engine of the ba-knowledge-base
repository: a shallow embedding of the message routes
(`src/routes/messages.ts`), the pipeline state-merge semantics
(`src/graph/builder.ts`), the node functions (`graph/node.ts`), the Milvus
retrieval service (`services/milvus-service.ts`) and the checkpoint deletion
transaction, together with theorems settling the specification claims.
-/

/-- A LangChain chat message: `HumanMessage` or `AIMessage`
(`@langchain/core/messages`). -/
inductive LcMessage where
  | human (content : String)
  | ai (content : String)
deriving DecidableEq, Repr

/-- One persisted row of the `message` table for a chat: `role` is the
stored role string (the routes write `"user"` or `"ai"`), `content` the
message text.  The per-chat rows are kept in creation order (every insert
appends a row created later than all existing ones, so ascending
`created_at` order coincides with list order). -/
structure DbMessage where
  role : String
  content : String
deriving DecidableEq, Repr

/-- Mapping of a stored row to a LangChain message: rows with role
"user" become HumanMessage, all others AIMessage
(src/routes/messages.ts, history mapping). -/
def toLangChain (m : DbMessage) : LcMessage :=
  if m.role = "user" then LcMessage.human m.content else LcMessage.ai m.content

/-- The persisted conversation state of one chat that the message routes
mutate: the ordered `message` rows of the chat and the
`lastMessage` column of the chat row. -/
structure ChatDb where
  messages : List DbMessage
  lastMessage : String
deriving DecidableEq, Repr

/-- JavaScript `s.slice(0, n)` on a string: the first `n` characters. -/
def sliceFirst (n : Nat) (s : String) : String :=
  ((s.toList).take n).asString

/-- The AgentState threaded through the pipeline
(`Annotation.Root` in src/graph/builder.ts). -/
structure AgentState where
  characterName : String
  messages : List LcMessage
  context : String
  reflection : String
  response : String
deriving DecidableEq, Repr

/-- A node partial state update: each channel the returned object of a
node may or may not contain (`Promise<Partial<AgentState>>`). -/
structure StateUpdate where
  characterName : Option String := none
  messages : Option (List LcMessage) := none
  context : Option String := none
  reflection : Option String := none
  response : Option String := none
deriving DecidableEq, Repr

/-- The declared reducer of the `messages` channel:
`reducer: (x, y) => x.concat(y)` (src/graph/builder.ts). -/
def messagesReducer (x y : List LcMessage) : List LcMessage := x ++ y

/-- Merging the partial update of a node into the accumulated state.  The
`messages` channel applies `messagesReducer`; every other channel is a
plain `Annotation<string>()`, whose LangGraph default channel overwrites
the stored value with the incoming one (last value wins). -/
def applyUpdate (s : AgentState) (u : StateUpdate) : AgentState where
  characterName :=
    match u.characterName with
    | some v => v
    | none => s.characterName
  messages :=
    match u.messages with
    | some v => messagesReducer s.messages v
    | none => s.messages
  context :=
    match u.context with
    | some v => v
    | none => s.context
  reflection :=
    match u.reflection with
    | some v => v
    | none => s.reflection
  response :=
    match u.response with
    | some v => v
    | none => s.response

/-! ## Checkpoint deletion (three-table transaction)

`src/routes/messages.ts` lines 679–691 (and the chat delete route): three
`DELETE FROM ... WHERE thread_id = ${chatId}` statements for the tables
`checkpoints`, `checkpoint_writes`, `checkpoint_blobs`, all issued inside a
single `db.transaction`; if any statement fails the transaction rolls back
and no table is changed. -/

/-- A row of one of the three checkpoint tables: its `thread_id` key plus
opaque payload. -/
structure CkptRow where
  threadId : String
  payload : Nat
deriving DecidableEq, Repr

/-- The three constituent stores of the checkpointer. -/
structure CheckpointStores where
  checkpoints : List CkptRow
  checkpointWrites : List CkptRow
  checkpointBlobs : List CkptRow
deriving DecidableEq, Repr

/-- The rows a table holds for a given thread. -/
def rowsFor (rows : List CkptRow) (tid : String) : List CkptRow :=
  rows.filter (fun r => r.threadId = tid)

/-- One DELETE statement, `DELETE FROM t WHERE thread_id = tid`, applied
to one table. -/
def deleteThreadRows (rows : List CkptRow) (tid : String) : List CkptRow :=
  rows.filter (fun r => ¬ r.threadId = tid)

/-- The checkpoint-clearing transaction: the three deletes run inside one
`db.transaction`; `f1 f2 f3` say whether each statement fails.  A failure
of any statement aborts and rolls back the whole transaction, leaving the
stores unchanged; otherwise all three deletes commit together. -/
def checkpointDeleteTx (s : CheckpointStores) (tid : String)
    (f1 f2 f3 : Bool) : CheckpointStores :=
  if f1 || f2 || f3 then s
  else
    { checkpoints := deleteThreadRows s.checkpoints tid
      checkpointWrites := deleteThreadRows s.checkpointWrites tid
      checkpointBlobs := deleteThreadRows s.checkpointBlobs tid }

/-! ## Blocking turn (`sendMessageRoute` handler, src/routes/messages.ts 132–215)

After authorization, the handler (a) inserts the user message row and sets
the chat `lastMessage` column to the first 20 characters of `msg`, (b) queries the chat
messages ordered by ascending `createdAt` with `limit: 20`, maps them to
LangChain messages and pushes `new HumanMessage(msg)`, (c) invokes the
graph, and (d) on success inserts the `ai` row with the `response` of the final
state and updates `lastMessage`; on any thrown error it returns a
single `INTERNAL_ERROR` 500 response without further writes. -/

/-- The history query, `db.query.message.findMany` with ascending
`createdAt` order and `limit: 20`: the 20 earliest rows of the
creation-ordered log. -/
def historyMessages (rows : List DbMessage) : List DbMessage :=
  rows.take 20

/-- The prompt history handed to `characterGraph.invoke` by the blocking
route: the queried history mapped to LangChain messages, then
`langChainMessages.push(new HumanMessage(msg))`. -/
def blockLangChainMessages (rows : List DbMessage) (msg : String) : List LcMessage :=
  (historyMessages rows).map toLangChain ++ [LcMessage.human msg]

/-- The prompt history handed to `characterGraph.streamEvents` by the
streaming route: the queried history mapped to LangChain messages (no
extra push of the new message). -/
def streamLangChainMessages (rows : List DbMessage) : List LcMessage :=
  (historyMessages rows).map toLangChain

/-- What the blocking route answers the caller. -/
inductive TurnOutcome where
  | ok (response : String)
  | internalError
deriving DecidableEq, Repr

/-- The blocking turn, with the graph invocation abstracted as `invoke`
(history, characterName ↦ final state or thrown error).  Returns the
persisted chat state after the turn and the HTTP outcome. -/
def sendMessageTurn
    (invoke : List LcMessage → String → Except String AgentState)
    (characterName : String) (db : ChatDb) (msg : String) :
    ChatDb × TurnOutcome :=
  let db1 : ChatDb :=
    { messages := db.messages ++ [{ role := "user", content := msg }]
      lastMessage := sliceFirst 20 msg }
  match invoke (blockLangChainMessages db1.messages msg) characterName with
  | Except.ok finalState =>
      ({ messages := db1.messages ++ [{ role := "ai", content := finalState.response }]
         lastMessage := sliceFirst 20 finalState.response },
       TurnOutcome.ok finalState.response)
  | Except.error _ => (db1, TurnOutcome.internalError)

/-! ## Streaming turn (`sendStreamMessageRoute` handler, src/routes/messages.ts 323–430)

After inserting the user row and updating `lastMessage`, the handler opens
an SSE stream, queries the history (same 20-earliest window, no push of the
new message) and iterates `characterGraph.streamEvents`.  Chunks from the
`reflect` node are forwarded as `reflection_chunk` events, chunks from the
`generate` node are appended to `finalResponse` and forwarded as `token`
events; a thrown error emits one `error` event.  Afterwards, if
`finalResponse` is non-empty (JS truthiness) the `ai` row is inserted and
`lastMessage` updated — whether or not an error occurred — and finally a
`final` event (with no `content` field) is written and the stream closed. -/

/-- One chunk observed while iterating `characterGraph.streamEvents`:
`node` is `chunk.metadata.langgraph_node`, `chunk` the `chunk.data.chunk`
token content when it is neither `null` nor `undefined`. -/
structure StreamChunk where
  node : String
  chunk : Option String
deriving DecidableEq, Repr

/-- The SSE event records the handler writes.  The `final` record is
serialized without a `content` field. -/
inductive SSEEvent where
  | reflectionChunk (content : String)
  | token (content : String)
  | errorEvent (content : String)
  | final
deriving DecidableEq, Repr

/-- The `content` field of an emitted event record, when present. -/
def eventContent : SSEEvent → Option String
  | SSEEvent.reflectionChunk c => some c
  | SSEEvent.token c => some c
  | SSEEvent.errorEvent c => some c
  | SSEEvent.final => none

/-- The error text written by the catch block of the handler. -/
def streamErrorText : String := "处理聊天时出错"

/-- The events written while iterating the chunk stream: `reflect`-node
chunks become `reflection_chunk` records, `generate`-node chunks become
`token` records, everything else is skipped. -/
def chunkEvents : List StreamChunk → List SSEEvent
  | [] => []
  | c :: rest =>
      (if c.node = "reflect" then
        match c.chunk with
        | some t => [SSEEvent.reflectionChunk t]
        | none => []
      else if c.node = "generate" then
        match c.chunk with
        | some t => [SSEEvent.token t]
        | none => []
      else []) ++ chunkEvents rest

/-- Accumulation `finalResponse += token.content` over the delivered
chunks: the concatenated content of the `generate`-node chunks. -/
def accumResponse : List StreamChunk → String
  | [] => ""
  | c :: rest =>
      (if c.node = "generate" then
        match c.chunk with
        | some t => t
        | none => ""
      else "") ++ accumResponse rest

/-- The streaming turn.  The event stream of the graph is abstracted as the list
of chunks delivered before the iteration ended (`chunks`) and whether it
ended by throwing (`errored = true`) or by completing.  Returns the
persisted chat state after the turn and the full ordered list of SSE
records written to the channel before it is closed. -/
def sendStreamTurn (db : ChatDb) (msg : String)
    (chunks : List StreamChunk) (errored : Bool) : ChatDb × List SSEEvent :=
  let db1 : ChatDb :=
    { messages := db.messages ++ [{ role := "user", content := msg }]
      lastMessage := sliceFirst 20 msg }
  let events :=
    chunkEvents chunks ++
      (if errored then [SSEEvent.errorEvent streamErrorText] else [])
  let finalResponse := accumResponse chunks
  let db2 : ChatDb :=
    if finalResponse = "" then db1
    else
      { messages := db1.messages ++ [{ role := "ai", content := finalResponse }]
        lastMessage := sliceFirst 20 finalResponse }
  (db2, events ++ [SSEEvent.final])

/-- In-order concatenation of the `content` of the `token`-typed records of
an event sequence. -/
def tokenConcat : List SSEEvent → String
  | [] => ""
  | SSEEvent.token c :: rest => c ++ tokenConcat rest
  | _ :: rest => tokenConcat rest

/-! ## Vector retrieval (services/milvus-service.ts and graph/node.ts)

`MilvusService.search` builds one Milvus search request — collection
`blue_archive_lore`, the query vector, `limit: k` with `k` defaulting to 5,
and a `character_name like` filter whose pattern wraps the character
name between two `%` wildcards (a substring match) — and maps the raw results to
`{content, metadata: {sourceType, topic}, score}`.  It has no error
handling of its own: a client error propagates to the caller.  The Milvus
client itself is external and is abstracted as a function from the request
to raw results or an error. -/

/-- The `like` filter expression of the search request, as its field name
and pattern (the source interpolates the character name between two `%`
wildcards, i.e. a substring match). -/
structure LikeFilter where
  field : String
  pattern : String
deriving DecidableEq, Repr

/-- The search request `MilvusService.search` hands to `client.search`. -/
structure SearchReq where
  collectionName : String
  vector : List Int
  limit : Nat
  filter : LikeFilter
deriving DecidableEq, Repr

/-- A raw Milvus result row (`output_fields: content, source_type, topic`
plus the score). -/
structure RawResult where
  content : String
  source_type : String
  topic : String
  score : Int
deriving DecidableEq, Repr

/-- The metadata part of a returned hit. -/
structure HitMetadata where
  sourceType : String
  topic : String
deriving DecidableEq, Repr

/-- A hit as returned by `MilvusService.search`:
`{content, metadata: {sourceType, topic}, score}`. -/
structure RetrievalHit where
  content : String
  metadata : HitMetadata
  score : Int
deriving DecidableEq, Repr

namespace MilvusService

/-- The method `MilvusService.search(queryVector, characterName, k = 5)`.
Here `client` is the external Milvus client search call; an error from it
propagates, as the method has no try/catch. -/
def search (client : SearchReq → Except String (List RawResult))
    (queryVector : List Int) (characterName : String) (k : Nat := 5) :
    Except String (List RetrievalHit) :=
  (client
      { collectionName := "blue_archive_lore"
        vector := queryVector
        limit := k
        filter := { field := "character_name"
                    pattern := "%" ++ characterName ++ "%" } }).map
    (fun results =>
      results.map (fun res =>
        { content := res.content
          metadata := { sourceType := res.source_type, topic := res.topic }
          score := res.score }))

end MilvusService

/-- The node state `graph/node.ts` destructures: `question`,
`characterName`, `context`, `reflection` and the `chatHistory` message
sequence. -/
structure NodeState where
  characterName : String
  question : String
  chatHistory : List LcMessage
  context : String
  reflection : String
deriving DecidableEq, Repr

/-- The partial update returned by the retrieve node: `{ context }`. -/
structure RetrieveUpdate where
  context : String
deriving DecidableEq, Repr

/-- The retrieve node (graph/node.ts): embeds `state.question`, calls
`milvusService.search(queryVector, characterName)` (so with the default
`k = 5`), and joins the result contents with a blank-line separator into
`context`.  Errors from the embedding call or the search propagate: the
node has no try/catch. -/
def retrieveNode (embedQuery : String → List Int)
    (client : SearchReq → Except String (List RawResult))
    (state : NodeState) : Except String RetrieveUpdate :=
  let queryVector := embedQuery state.question
  (MilvusService.search client queryVector state.characterName).map
    (fun results =>
      { context := String.intercalate "\n\n" (results.map (fun r => r.content)) })

/-- Follows the claim wording, for comparison with `retrieveNode`: the
latest user text of a message sequence — the content of the last
`HumanMessage`, if any. -/
def latestUserText (msgs : List LcMessage) : String :=
  match msgs.reverse.find? (fun m =>
    match m with
    | LcMessage.human _ => true
    | LcMessage.ai _ => false) with
  | some (LcMessage.human c) => c
  | _ => ""

/-- Follows the claim wording, for comparison with `retrieveNode`: a
retrieve node that embeds the latest user text from the message history
of the state instead of its `question` field. -/
def retrieveNodeClaim (embedQuery : String → List Int)
    (client : SearchReq → Except String (List RawResult))
    (state : NodeState) : Except String RetrieveUpdate :=
  let queryVector := embedQuery (latestUserText state.chatHistory)
  (MilvusService.search client queryVector state.characterName).map
    (fun results =>
      { context := String.intercalate "\n\n" (results.map (fun r => r.content)) })

/-! ## Auxiliary predicates and concrete fixtures -/

/-- Whether an event record is a `token` record. -/
def isTokenEvent : SSEEvent → Bool
  | SSEEvent.token _ => true
  | _ => false

/-- Whether an event record is an `error` record. -/
def isErrorEvent : SSEEvent → Bool
  | SSEEvent.errorEvent _ => true
  | _ => false

/-- No `token` record occurs after an `error` record in the sequence. -/
def noTokenAfterError : List SSEEvent → Bool
  | [] => true
  | SSEEvent.errorEvent _ :: rest => rest.all (fun e => !isTokenEvent e)
  | _ :: rest => noTokenAfterError rest

/-- A graph invocation that throws (generation failure). -/
def failingInvoke : List LcMessage → String → Except String AgentState :=
  fun _ _ => Except.error "generation failed"

/-- A concrete embedding function: the vector records the query length. -/
def embedLen : String → List Int :=
  fun s => [Int.ofNat s.length]

/-- A Milvus client that errors (provider timeout). -/
def timeoutClient : SearchReq → Except String (List RawResult) :=
  fun _ => Except.error "timeout"

/-- A Milvus client whose answer reveals which query vector it was given. -/
def vectorClient : SearchReq → Except String (List RawResult) :=
  fun req =>
    Except.ok [{ content := if req.vector = [2] then "ctx-question" else "ctx-history"
                 source_type := "lore"
                 topic := "money"
                 score := 1 }]

/-- A node state whose `question` differs from the latest user text of its
message history. -/
def mismatchState : NodeState :=
  { characterName := "Aru"
    question := "QQ"
    chatHistory := [LcMessage.human "A"]
    context := ""
    reflection := "" }

/-- A concrete instance of the three checkpoint stores holding rows for two
threads. -/
def demoStores : CheckpointStores :=
  { checkpoints := [{ threadId := "t1", payload := 1 }, { threadId := "t2", payload := 2 }]
    checkpointWrites := [{ threadId := "t1", payload := 3 }]
    checkpointBlobs := [{ threadId := "t1", payload := 4 }] }

/-- A thread history already holding 20 persisted messages. -/
def pre20 : List DbMessage :=
  List.replicate 20 { role := "user", content := "x" }

/-! ## Helper lemmas -/

theorem tokenConcat_append (xs ys : List SSEEvent) :
    tokenConcat (xs ++ ys) = tokenConcat xs ++ tokenConcat ys := by
  induction xs with
  | nil => simp [tokenConcat]
  | cons e rest ih =>
      cases e <;> simp [tokenConcat, ih, String.append_assoc]

theorem tokenConcat_chunkEvents (cs : List StreamChunk) :
    tokenConcat (chunkEvents cs) = accumResponse cs := by
  induction cs with
  | nil => rfl
  | cons c rest ih =>
      by_cases hr : c.node = "reflect"
      · have hg : ¬ c.node = "generate" := by
          rw [hr]; decide
        cases hc : c.chunk <;>
          simp [chunkEvents, accumResponse, hr, hg, hc, tokenConcat, ih]
      · by_cases hg : c.node = "generate"
        · cases hc : c.chunk <;>
            simp [chunkEvents, accumResponse, hr, hg, hc, tokenConcat,
              tokenConcat_append, ih]
        · simp [chunkEvents, accumResponse, hr, hg, tokenConcat, ih]

theorem chunkEvents_shape (cs : List StreamChunk) (e : SSEEvent)
    (he : e ∈ chunkEvents cs) :
    (∃ c, e = SSEEvent.reflectionChunk c) ∨ (∃ c, e = SSEEvent.token c) := by
  induction cs with
  | nil => simp [chunkEvents] at he
  | cons c rest ih =>
      by_cases hr : c.node = "reflect"
      · have hg : ¬ c.node = "generate" := by rw [hr]; decide
        cases hc : c.chunk <;>
          simp [chunkEvents, hr, hg, hc] at he
        · exact ih he
        · rcases he with h | h
          · exact Or.inl ⟨_, by rw [h]⟩
          · exact ih h
      · by_cases hg : c.node = "generate"
        · cases hc : c.chunk <;>
            simp [chunkEvents, hr, hg, hc] at he
          · exact ih he
          · rcases he with h | h
            · exact Or.inr ⟨_, by rw [h]⟩
            · exact ih h
        · simp [chunkEvents, hr, hg] at he
          exact ih he

theorem noTokenAfterError_chunkEvents (cs : List StreamChunk)
    (tail : List SSEEvent) :
    noTokenAfterError (chunkEvents cs ++ tail) = noTokenAfterError tail := by
  induction cs with
  | nil => simp [chunkEvents]
  | cons c rest ih =>
      by_cases hr : c.node = "reflect"
      · have hg : ¬ c.node = "generate" := by rw [hr]; decide
        cases hc : c.chunk <;>
          simp [chunkEvents, hr, hg, hc, noTokenAfterError, ih]
      · by_cases hg : c.node = "generate"
        · cases hc : c.chunk <;>
            simp [chunkEvents, hr, hg, hc, noTokenAfterError, ih]
        · simp [chunkEvents, hr, hg, noTokenAfterError, ih]

theorem rowsFor_deleteThreadRows (rows : List CkptRow) (tid : String) :
    rowsFor (deleteThreadRows rows tid) tid = [] := by
  simp [rowsFor, deleteThreadRows, List.filter_filter]

/-! ## Claim theorems -/

/-- C4: for every thread, the checkpoint deletion transaction is atomic
across the three constituent stores: when no statement fails, zero rows
remain for the thread in `checkpoints`, `checkpoint_writes` and
`checkpoint_blobs`; when any statement fails, all three stores still hold
exactly their previous rows. -/
theorem checkpointDeleteTx_atomic (s : CheckpointStores) (tid : String)
    (f1 f2 f3 : Bool) :
    ((f1 = false ∧ f2 = false ∧ f3 = false) →
      rowsFor (checkpointDeleteTx s tid f1 f2 f3).checkpoints tid = [] ∧
      rowsFor (checkpointDeleteTx s tid f1 f2 f3).checkpointWrites tid = [] ∧
      rowsFor (checkpointDeleteTx s tid f1 f2 f3).checkpointBlobs tid = []) ∧
    ((f1 || f2 || f3) = true → checkpointDeleteTx s tid f1 f2 f3 = s) := by
  constructor
  · rintro ⟨h1, h2, h3⟩
    subst h1; subst h2; subst h3
    refine ⟨?_, ?_, ?_⟩ <;>
      simp [checkpointDeleteTx, rowsFor_deleteThreadRows]
  · intro h
    simp [checkpointDeleteTx, h]

/-- Witness for C4 at a concrete store: a fully successful delete leaves no
`t1` rows in the checkpoints store, and a delete whose first statement
fails leaves all stores unchanged. -/
theorem checkpointDeleteTx_atomic_witness :
    rowsFor (checkpointDeleteTx demoStores "t1" false false false).checkpoints "t1" = [] ∧
    checkpointDeleteTx demoStores "t1" true false false = demoStores :=
  ⟨((checkpointDeleteTx_atomic demoStores "t1" false false false).1
      ⟨rfl, rfl, rfl⟩).1,
    (checkpointDeleteTx_atomic demoStores "t1" true false false).2 rfl⟩

/-- C7: in the state merge of the pipeline, `messages` is the only accumulating
channel — a provided update is concatenated after the existing sequence,
which is never discarded — while `characterName`, `context`, `reflection`
and `response` are overwritten by a provided update regardless of the
previous value (last write wins). -/
theorem applyUpdate_merge_semantics (s t : AgentState) (u : StateUpdate) :
    (∀ v, u.messages = some v →
      (applyUpdate s u).messages = s.messages ++ v) ∧
    (u.messages = none → (applyUpdate s u).messages = s.messages) ∧
    (∀ x, u.context = some x →
      (applyUpdate s u).context = x ∧ (applyUpdate t u).context = x) ∧
    (∀ x, u.reflection = some x →
      (applyUpdate s u).reflection = x ∧ (applyUpdate t u).reflection = x) ∧
    (∀ x, u.response = some x →
      (applyUpdate s u).response = x ∧ (applyUpdate t u).response = x) ∧
    (∀ x, u.characterName = some x →
      (applyUpdate s u).characterName = x ∧ (applyUpdate t u).characterName = x) := by
  refine ⟨?_, ?_, ?_, ?_, ?_, ?_⟩
  · intro v hv; simp [applyUpdate, messagesReducer, hv]
  · intro hv; simp [applyUpdate, hv]
  · intro x hx; simp [applyUpdate, hx]
  · intro x hx; simp [applyUpdate, hx]
  · intro x hx; simp [applyUpdate, hx]
  · intro x hx; simp [applyUpdate, hx]

/-- Witness for C7 at a concrete state and update: the `generate` update
`{response := "r"}` overwrites `response`, and a `messages` update is
appended after the existing history. -/
theorem applyUpdate_merge_semantics_witness :
    (applyUpdate
        { characterName := "Aru", messages := [LcMessage.human "hi"],
          context := "c", reflection := "f", response := "old" }
        { response := some "r" }).response = "r" ∧
    (applyUpdate
        { characterName := "Aru", messages := [LcMessage.human "hi"],
          context := "c", reflection := "f", response := "old" }
        { messages := some [LcMessage.ai "a"] }).messages =
      [LcMessage.human "hi"] ++ [LcMessage.ai "a"] :=
  ⟨((applyUpdate_merge_semantics
      { characterName := "Aru", messages := [LcMessage.human "hi"],
        context := "c", reflection := "f", response := "old" }
      { characterName := "Aru", messages := [LcMessage.human "hi"],
        context := "c", reflection := "f", response := "old" }
      { response := some "r" }).2.2.2.2.1 "r" rfl).1,
    (applyUpdate_merge_semantics
      { characterName := "Aru", messages := [LcMessage.human "hi"],
        context := "c", reflection := "f", response := "old" }
      { characterName := "Aru", messages := [LcMessage.human "hi"],
        context := "c", reflection := "f", response := "old" }
      { messages := some [LcMessage.ai "a"] }).1 [LcMessage.ai "a"] rfl⟩

/-- C10: the prompt history handed to the pipeline is capped at the 20
earliest persisted messages: the streaming prompt never exceeds 20
entries, and once the thread already holds at least 20 rows, the prompt is
exactly the 20 earliest rows (plus the pushed new user message in blocking
mode) — the freshly persisted user row and everything later are excluded
even though they remain persisted. -/
theorem pipeline_history_cap (pre : List DbMessage) (msg : String) :
    (streamLangChainMessages
        (pre ++ [{ role := "user", content := msg }])).length ≤ 20 ∧
    (20 ≤ pre.length →
      blockLangChainMessages (pre ++ [{ role := "user", content := msg }]) msg =
        (pre.take 20).map toLangChain ++ [LcMessage.human msg] ∧
      streamLangChainMessages (pre ++ [{ role := "user", content := msg }]) =
        (pre.take 20).map toLangChain) := by
  constructor
  · simp [streamLangChainMessages, historyMessages]
  · intro h
    have ht : (pre ++ [({ role := "user", content := msg } : DbMessage)]).take 20 =
        pre.take 20 := List.take_append_of_le_length h
    constructor
    · simp [blockLangChainMessages, historyMessages, ht]
    · simp [streamLangChainMessages, historyMessages, ht]

/-- Witness for C10 on a thread with 20 persisted messages: the blocking
prompt is the 20 earliest rows plus the new user message and the streaming
prompt is those 20 rows alone, excluding the newly persisted user row. -/
theorem pipeline_history_cap_witness :
    20 ≤ pre20.length ∧
    blockLangChainMessages (pre20 ++ [{ role := "user", content := "hi" }]) "hi" =
      (pre20.take 20).map toLangChain ++ [LcMessage.human "hi"] ∧
    streamLangChainMessages (pre20 ++ [{ role := "user", content := "hi" }]) =
      (pre20.take 20).map toLangChain :=
  ⟨by simp [pre20],
    ((pipeline_history_cap pre20 "hi").2 (by simp [pre20])).1,
    ((pipeline_history_cap pre20 "hi").2 (by simp [pre20])).2⟩

/-- C1: for a streaming turn whose chunk stream completes without error,
the `ai` row persisted for the turn carries exactly the in-order
concatenation of the content of the `token`-typed records the turn
streamed (whenever the accumulated text is non-empty, which is the
condition under which the handler persists at all). -/
theorem stream_persistence_equivalence (db : ChatDb) (msg : String)
    (chunks : List StreamChunk) (h : accumResponse chunks ≠ "") :
    (sendStreamTurn db msg chunks false).1.messages =
      db.messages ++ [{ role := "user", content := msg },
        { role := "ai",
          content := tokenConcat (sendStreamTurn db msg chunks false).2 }] := by
  have hev : tokenConcat (sendStreamTurn db msg chunks false).2 =
      accumResponse chunks := by
    simp [sendStreamTurn, tokenConcat_append, tokenConcat_chunkEvents, tokenConcat]
  rw [hev]
  simp [sendStreamTurn, h]

/-- Witness for C1: a completed stream of one `generate` chunk persists an
`ai` row equal to the concatenated `token` content. -/
theorem stream_persistence_equivalence_witness :
    accumResponse [{ node := "generate", chunk := some "hel" }] ≠ "" ∧
    (sendStreamTurn { messages := [], lastMessage := "" } "hi"
        [{ node := "generate", chunk := some "hel" }] false).1.messages =
      ([] : List DbMessage) ++ [{ role := "user", content := "hi" },
        { role := "ai",
          content := tokenConcat (sendStreamTurn { messages := [], lastMessage := "" }
            "hi" [{ node := "generate", chunk := some "hel" }] false).2 }] :=
  ⟨by decide,
    stream_persistence_equivalence { messages := [], lastMessage := "" } "hi"
      [{ node := "generate", chunk := some "hel" }] (by decide)⟩

/-- C2 counterexample: a streaming turn whose underlying stream errors
after one delivered `generate` chunk still persists the partial
accumulated text `"par"` as the committed `ai` row, contradicting the
claim that nothing is persisted unless the stream completes without
error. -/
theorem stream_error_persists_partial_cex :
    (sendStreamTurn { messages := [], lastMessage := "" } "hi"
        [{ node := "generate", chunk := some "par" }] true).1.messages =
      [{ role := "user", content := "hi" }, { role := "ai", content := "par" }] ∧
    (sendStreamTurn { messages := [], lastMessage := "" } "hi"
        [{ node := "generate", chunk := some "par" }] true).2 =
      [SSEEvent.token "par", SSEEvent.errorEvent streamErrorText, SSEEvent.final] := by
  decide

/-- C2 (amended): the assistant row is written after the stream loop ends
whether or not it errored — the partial accumulated response is persisted
as the committed `response` whenever it is non-empty, and nothing is
persisted exactly when the accumulated text is empty. -/
theorem stream_error_persistence_policy (db : ChatDb) (msg : String)
    (chunks : List StreamChunk) (errored : Bool) :
    (accumResponse chunks ≠ "" →
      (sendStreamTurn db msg chunks errored).1.messages =
        db.messages ++ [{ role := "user", content := msg },
          { role := "ai", content := accumResponse chunks }]) ∧
    (accumResponse chunks = "" →
      (sendStreamTurn db msg chunks errored).1.messages =
        db.messages ++ [{ role := "user", content := msg }]) := by
  constructor <;> intro h <;> simp [sendStreamTurn, h]

/-- Witness for C2 (amended): an errored stream with accumulated text
`"pa"` persists that partial text. -/
theorem stream_error_persistence_policy_witness :
    accumResponse [{ node := "generate", chunk := some "pa" }] ≠ "" ∧
    (sendStreamTurn { messages := [], lastMessage := "" } "yo"
        [{ node := "generate", chunk := some "pa" }] true).1.messages =
      ([] : List DbMessage) ++ [{ role := "user", content := "yo" },
        { role := "ai",
          content := accumResponse [{ node := "generate", chunk := some "pa" }] }] :=
  ⟨by decide,
    (stream_error_persistence_policy { messages := [], lastMessage := "" } "yo"
      [{ node := "generate", chunk := some "pa" }] true).1 (by decide)⟩

/-- C3 counterexample: a blocking turn that fails mid-pipeline appends only
the user row — the persisted sequence afterwards has one new entry, not a
user entry followed by an assistant entry. -/
theorem failed_turn_message_append_cex :
    (sendMessageTurn failingInvoke "Aru" { messages := [], lastMessage := "" }
        "hi").1.messages = [{ role := "user", content := "hi" }] ∧
    ((sendMessageTurn failingInvoke "Aru" { messages := [], lastMessage := "" }
        "hi").1.messages).length = 1 := by
  decide

/-- C3 (amended): a successful blocking turn appends exactly one user entry
then one assistant entry; a blocking turn that fails mid-pipeline appends
only the user entry; a streaming turn appends the user entry and then an
assistant entry exactly when the accumulated token text is non-empty. -/
theorem message_append_by_outcome
    (invoke : List LcMessage → String → Except String AgentState)
    (ch : String) (db : ChatDb) (msg : String) :
    (∀ st, invoke (blockLangChainMessages
          (db.messages ++ [{ role := "user", content := msg }]) msg) ch =
        Except.ok st →
      (sendMessageTurn invoke ch db msg).1.messages =
        db.messages ++ [{ role := "user", content := msg },
          { role := "ai", content := st.response }]) ∧
    (∀ e, invoke (blockLangChainMessages
          (db.messages ++ [{ role := "user", content := msg }]) msg) ch =
        Except.error e →
      (sendMessageTurn invoke ch db msg).1.messages =
        db.messages ++ [{ role := "user", content := msg }]) ∧
    (∀ (chunks : List StreamChunk) (errored : Bool),
      (sendStreamTurn db msg chunks errored).1.messages =
        db.messages ++ [{ role := "user", content := msg }] ++
          (if accumResponse chunks = "" then []
            else [{ role := "ai", content := accumResponse chunks }])) := by
  refine ⟨?_, ?_, ?_⟩
  · intro st hst; simp [sendMessageTurn, hst]
  · intro e he; simp [sendMessageTurn, he]
  · intro chunks errored
    by_cases h : accumResponse chunks = "" <;> simp [sendStreamTurn, h]

/-- Witness for C3 (amended): a failing blocking turn on a fresh thread
appends exactly the user entry. -/
theorem message_append_by_outcome_witness :
    failingInvoke (blockLangChainMessages
        (([] : List DbMessage) ++ [{ role := "user", content := "hi2" }]) "hi2")
      "Aru" = Except.error "generation failed" ∧
    (sendMessageTurn failingInvoke "Aru" { messages := [], lastMessage := "" }
        "hi2").1.messages =
      ([] : List DbMessage) ++ [{ role := "user", content := "hi2" }] :=
  ⟨rfl,
    (message_append_by_outcome failingInvoke "Aru"
      { messages := [], lastMessage := "" } "hi2").2.1 "generation failed" rfl⟩

/-- C6 counterexample: a turn whose generation fails leaves the persisted
conversation state changed — the user row is already inserted and the
chat `lastMessage` column updated — contradicting the claim that the prior
persisted state is untouched. -/
theorem generation_failure_mutates_state_cex :
    (sendMessageTurn failingInvoke "Aru"
        { messages := [{ role := "ai", content := "old" }], lastMessage := "old" }
        "hello").1 ≠
      { messages := [{ role := "ai", content := "old" }], lastMessage := "old" } ∧
    (sendMessageTurn failingInvoke "Aru"
        { messages := [{ role := "ai", content := "old" }], lastMessage := "old" }
        "hello").1.messages =
      [{ role := "ai", content := "old" }, { role := "user", content := "hello" }] ∧
    (sendMessageTurn failingInvoke "Aru"
        { messages := [{ role := "ai", content := "old" }], lastMessage := "old" }
        "hello").2 = TurnOutcome.internalError := by
  decide

/-- C6 (amended): when the graph invocation errors, the turn aborts with a
single typed `INTERNAL_ERROR` outcome and no assistant row or `response`
is committed, but the user row inserted before the pipeline ran and the
updated `lastMessage` remain persisted. -/
theorem generation_failure_semantics
    (invoke : List LcMessage → String → Except String AgentState)
    (ch : String) (db : ChatDb) (msg e : String)
    (h : invoke (blockLangChainMessages
        (db.messages ++ [{ role := "user", content := msg }]) msg) ch =
      Except.error e) :
    sendMessageTurn invoke ch db msg =
      ({ messages := db.messages ++ [{ role := "user", content := msg }]
         lastMessage := sliceFirst 20 msg }, TurnOutcome.internalError) := by
  simp [sendMessageTurn, h]

/-- Witness for C6 (amended) at a concrete failing invocation. -/
theorem generation_failure_semantics_witness :
    failingInvoke (blockLangChainMessages
        (([] : List DbMessage) ++ [{ role := "user", content := "hey" }]) "hey")
      "Aru" = Except.error "generation failed" ∧
    sendMessageTurn failingInvoke "Aru" { messages := [], lastMessage := "z" } "hey" =
      ({ messages := ([] : List DbMessage) ++ [{ role := "user", content := "hey" }]
         lastMessage := sliceFirst 20 "hey" }, TurnOutcome.internalError) :=
  ⟨rfl,
    generation_failure_semantics failingInvoke "Aru"
      { messages := [], lastMessage := "z" } "hey" "generation failed" rfl⟩

/-- C5 counterexample: when the Milvus client errors (provider timeout),
`MilvusService.search` raises that error instead of returning an empty
sequence, and `retrieveNode` propagates it instead of completing with an
empty `context` — the turn fails rather than degrading. -/
theorem search_error_propagates_cex :
    MilvusService.search timeoutClient [1] "Aru" = Except.error "timeout" ∧
    retrieveNode embedLen timeoutClient
        { characterName := "Aru", question := "q", chatHistory := [],
          context := "", reflection := "" } =
      Except.error "timeout" :=
  ⟨rfl, rfl⟩

/-- C5 (amended): a provider error propagates — `search` returns the
client error and `retrieveNode` fails with it (so the turn aborts via
the catch in the route) — while a successful search with zero hits yields
`context` equal to the empty string. -/
theorem retrieval_error_propagation
    (client : SearchReq → Except String (List RawResult))
    (emb : String → List Int) (st : NodeState) (v : List Int)
    (name e : String) (k : Nat) :
    (client { collectionName := "blue_archive_lore", vector := v, limit := k,
              filter := { field := "character_name",
                          pattern := "%" ++ name ++ "%" } } =
        Except.error e →
      MilvusService.search client v name k = Except.error e) ∧
    (client { collectionName := "blue_archive_lore", vector := emb st.question,
              limit := 5,
              filter := { field := "character_name",
                          pattern := "%" ++ st.characterName ++ "%" } } =
        Except.error e →
      retrieveNode emb client st = Except.error e) ∧
    (client { collectionName := "blue_archive_lore", vector := emb st.question,
              limit := 5,
              filter := { field := "character_name",
                          pattern := "%" ++ st.characterName ++ "%" } } =
        Except.ok [] →
      retrieveNode emb client st = Except.ok { context := "" }) := by
  refine ⟨?_, ?_, ?_⟩ <;> intro h <;>
    simp [retrieveNode, MilvusService.search, h, Except.map, String.intercalate]

/-- Witness for C5 (amended): a timing-out client makes the retrieve node
fail with the provider error. -/
theorem retrieval_error_propagation_witness :
    timeoutClient { collectionName := "blue_archive_lore",
                    vector := embedLen "q", limit := 5,
                    filter := { field := "character_name",
                                pattern := "%" ++ "Aru" ++ "%" } } =
      Except.error "timeout" ∧
    retrieveNode embedLen timeoutClient
        { characterName := "Aru", question := "q", chatHistory := [],
          context := "", reflection := "" } =
      Except.error "timeout" :=
  ⟨rfl,
    (retrieval_error_propagation timeoutClient embedLen
      { characterName := "Aru", question := "q", chatHistory := [],
        context := "", reflection := "" } [] "Aru" "timeout" 5).2.1 rfl⟩

/-- C8 counterexample: on a state whose `question` differs from the latest
user text of its message history, `retrieveNode` searches with the
embedding of `question` — the retrieved `context` differs from what
embedding the latest user message would produce. -/
theorem retrieve_embeds_question_cex :
    retrieveNode embedLen vectorClient mismatchState =
      Except.ok { context := "ctx-question" } ∧
    retrieveNodeClaim embedLen vectorClient mismatchState =
      Except.ok { context := "ctx-history" } ∧
    retrieveNode embedLen vectorClient mismatchState ≠
      retrieveNodeClaim embedLen vectorClient mismatchState := by
  refine ⟨rfl, rfl, ?_⟩
  intro h
  have h1 : retrieveNode embedLen vectorClient mismatchState =
      Except.ok { context := "ctx-question" } := rfl
  have h2 : retrieveNodeClaim embedLen vectorClient mismatchState =
      Except.ok { context := "ctx-history" } := rfl
  rw [h1, h2] at h
  injection h with h3
  exact absurd h3 (by decide)

/-- C8 (amended): `retrieveNode` embeds the `question` field of the state (not
text taken from the message history), issues one search on collection
`blue_archive_lore` with the default `k = 5` and a `character_name`
substring filter built from the `characterName` of the state, and sets
`context` to the hit contents joined by a blank-line separator. -/
theorem retrieve_node_semantics
    (emb : String → List Int)
    (client : SearchReq → Except String (List RawResult))
    (st : NodeState) (hits : List RawResult)
    (h : client { collectionName := "blue_archive_lore",
                  vector := emb st.question, limit := 5,
                  filter := { field := "character_name",
                              pattern := "%" ++ st.characterName ++ "%" } } =
      Except.ok hits) :
    retrieveNode emb client st =
      Except.ok { context :=
                    String.intercalate "\n\n" (hits.map (fun r => r.content)) } := by
  simp only [retrieveNode, MilvusService.search, h, Except.map, List.map_map]
  rfl

/-- Witness for C8 (amended) at a concrete client and state. -/
theorem retrieve_node_semantics_witness :
    vectorClient { collectionName := "blue_archive_lore",
                   vector := embedLen "QQ", limit := 5,
                   filter := { field := "character_name",
                               pattern := "%" ++ "Aru" ++ "%" } } =
      Except.ok [{ content := "ctx-question", source_type := "lore",
                   topic := "money", score := 1 }] ∧
    retrieveNode embedLen vectorClient mismatchState =
      Except.ok { context :=
                    String.intercalate "\n\n"
                      ([({ content := "ctx-question", source_type := "lore",
                           topic := "money", score := 1 } : RawResult)].map
                        (fun r => r.content)) } :=
  ⟨rfl, retrieve_node_semantics embedLen vectorClient mismatchState _ rfl⟩

/-- C9 counterexample: after a stream error the handler still emits a
`final` record before closing (the `error` record is not terminal), and
the `final` record carries no `content` field — refuting that every
emitted record carries a content string and that an `error` record is
immediately followed by channel close. -/
theorem sse_final_without_content_cex :
    (sendStreamTurn { messages := [], lastMessage := "" } "hey" [] true).2 =
      [SSEEvent.errorEvent streamErrorText, SSEEvent.final] ∧
    SSEEvent.final ∈ (sendStreamTurn { messages := [], lastMessage := "" } "hey" [] true).2 ∧
    eventContent SSEEvent.final = none := by
  refine ⟨rfl, ?_, rfl⟩
  simp [sendStreamTurn, chunkEvents]

/-- C9 (amended): every record the streaming handler emits has one of the
four types; `final` is the unique last record, emitted just before the
channel closes; every record before it carries a `content` string; and
after an `error` record no further `token` record is emitted (though a
content-less `final` record still follows). -/
theorem sse_event_protocol (db : ChatDb) (msg : String)
    (chunks : List StreamChunk) (errored : Bool) :
    ((sendStreamTurn db msg chunks errored).2).getLast? = some SSEEvent.final ∧
    SSEEvent.final ∉ ((sendStreamTurn db msg chunks errored).2).dropLast ∧
    (((sendStreamTurn db msg chunks errored).2).dropLast.all
        (fun e => (eventContent e).isSome)) = true ∧
    noTokenAfterError ((sendStreamTurn db msg chunks errored).2) = true := by
  have hev : (sendStreamTurn db msg chunks errored).2 =
      (chunkEvents chunks ++
        (if errored then [SSEEvent.errorEvent streamErrorText] else [])) ++
        [SSEEvent.final] := by
    simp [sendStreamTurn]
  rw [hev]
  refine ⟨List.getLast?_concat _, ?_, ?_, ?_⟩
  · rw [List.dropLast_concat]
    intro hmem
    rcases List.mem_append.1 hmem with h | h
    · rcases chunkEvents_shape chunks _ h with ⟨c, hc⟩ | ⟨c, hc⟩ <;> simp at hc
    · cases errored <;> simp at h
  · rw [List.dropLast_concat]
    refine List.all_eq_true.2 ?_
    intro e he
    rcases List.mem_append.1 he with h | h
    · rcases chunkEvents_shape chunks _ h with ⟨c, hc⟩ | ⟨c, hc⟩ <;>
        subst hc <;> rfl
    · cases errored <;> simp at h
      subst h; rfl
  · rw [List.append_assoc, noTokenAfterError_chunkEvents]
    cases errored <;> simp [noTokenAfterError, isTokenEvent]

/-- Witness for C9 (amended) at a concrete errored stream: the protocol
properties evaluated on one delivered `generate` chunk followed by an
error. -/
theorem sse_event_protocol_witness :
    ((sendStreamTurn { messages := [], lastMessage := "" } "m"
        [{ node := "generate", chunk := some "t" }] true).2).getLast? =
      some SSEEvent.final ∧
    SSEEvent.final ∉ ((sendStreamTurn { messages := [], lastMessage := "" } "m"
        [{ node := "generate", chunk := some "t" }] true).2).dropLast ∧
    (((sendStreamTurn { messages := [], lastMessage := "" } "m"
        [{ node := "generate", chunk := some "t" }] true).2).dropLast.all
      (fun e => (eventContent e).isSome)) = true ∧
    noTokenAfterError ((sendStreamTurn { messages := [], lastMessage := "" } "m"
        [{ node := "generate", chunk := some "t" }] true).2) = true :=
  sse_event_protocol { messages := [], lastMessage := "" } "m"
    [{ node := "generate", chunk := some "t" }] true
